import Mathlib

/-!
Verification of the Primis Python SDK client
(`src/sdk/python/src/primis/client.py` and `exceptions.py`).

The embedding models:
* parsed JSON values (`Json`), as produced by `response.json()`;
* the SDK exception taxonomy of `exceptions.py` (`PrimisExc`), plus the
  built-in Python exceptions that can escape the library (`PyExc`);
* one HTTP round trip `HttpClient.request` as a function of the transport
  outcome (`Transport`): timeout, connection error, or a response with a
  status code, an optional `Retry-After` header value and an optional parsed
  JSON body (`none` models a body that is not valid JSON);
* session construction (`HttpClient.init` / `Primis.init`) and the
  `Primis.base_url` property;
* the polling loop `wait_for_job`, as a function of an abstract fetch oracle
  (the result of the n-th `self.get_job(job_id)` call) producing, next to the
  outcome, the exact trace of fetch and sleep events.  Time is modelled
  deterministically: the clock starts at 0 and advances by `poll_interval`
  at each `time.sleep(poll_interval)`; fetches are instantaneous.  Durations
  are rationals (the Python code uses floats; none of the claims depends on
  rounding).
-/

/-- Parsed JSON values, the result of `response.json()`.  An `obj` is a
Python dict (association list, keys distinct after parsing), `arr` a list,
`num` an integer (JSON floats play no role in any claim). -/
inductive Json where
  | obj  (fields : List (String × Json))
  | arr  (elems : List Json)
  | str  (s : String)
  | num  (n : ℤ)
  | bool (b : Bool)
  | null
  deriving Repr

/-- Field lookup in a parsed JSON object (Python `dict` access). -/
def jsonLookup (fields : List (String × Json)) (k : String) : Option Json :=
  (fields.find? (fun kv => kv.1 == k)).map (fun kv => kv.2)

/-- The SDK exception taxonomy of `exceptions.py`.
`perror` is the base `PrimisError(message, code)` (default code `"UNKNOWN"`
is supplied at raise sites); `timeoutError` is `PrimisTimeoutError`
(code `"TIMEOUT"`); `apiError` is `PrimisAPIError(message, code, status_code)`;
`authError` is `PrimisAuthError` (code `"AUTH_ERROR"`, status 401);
`rateLimitError` is `PrimisRateLimitError` (code `"RATE_LIMIT_EXCEEDED"`,
status 429, `retry_after`).  Messages and codes are JSON values because the
Python code passes through whatever `data.get(...)` returns. -/
inductive PrimisExc where
  | perror         (message : Json) (code : Json)
  | timeoutError   (message : Json)
  | apiError       (message : Json) (code : Json) (status_code : ℕ)
  | authError      (message : Json)
  | rateLimitError (message : Json) (retry_after : ℤ)
  deriving Repr

/-- The `.code` attribute set by the constructors in `exceptions.py`. -/
def PrimisExc.code : PrimisExc → Json
  | .perror _ c         => c
  | .timeoutError _     => .str "TIMEOUT"
  | .apiError _ c _     => c
  | .authError _        => .str "AUTH_ERROR"
  | .rateLimitError _ _ => .str "RATE_LIMIT_EXCEEDED"

/-- The `.message` attribute. -/
def PrimisExc.message : PrimisExc → Json
  | .perror m _         => m
  | .timeoutError m     => m
  | .apiError m _ _     => m
  | .authError m        => m
  | .rateLimitError m _ => m

/-- The `.status_code` attribute (`none` for exceptions that are not
`PrimisAPIError`s). -/
def PrimisExc.status_code : PrimisExc → Option ℕ
  | .apiError _ _ s     => some s
  | .authError _        => some 401
  | .rateLimitError _ _ => some 429
  | _                   => none

/-- The `.retry_after` attribute of `PrimisRateLimitError`. -/
def PrimisExc.retry_after : PrimisExc → Option ℤ
  | .rateLimitError _ r => some r
  | _                   => none

/-- An exception escaping the library: either one of the typed SDK
exceptions, or a bare Python built-in.  `valueError lit` models the
`ValueError` raised by `int(lit)` on an unparseable literal;
`attributeError a` models the `AttributeError` raised by `data.a` when the
parsed JSON body is not a dict. -/
inductive PyExc where
  | primis         (e : PrimisExc)
  | valueError     (literal : String)
  | attributeError (attr : String)
  deriving Repr

/-- An HTTP response as `HttpClient.request` observes it: the numeric
status, the value of `response.headers.get("Retry-After")`, and the parsed
JSON body (`none` when `response.json()` raises `ValueError`). -/
structure Resp where
  status_code : ℕ
  retryAfterHeader : Option String
  jsonBody : Option Json

/-- Outcome of the underlying `self.session.request(...)` call. -/
inductive Transport where
  | timeout
  | connectionError (cause : String)
  | response (r : Resp)

/-- `response.ok` of the `requests` library: true unless
`raise_for_status` would raise, i.e. unless 400 ≤ status < 600. -/
def respOk (status : ℕ) : Bool :=
  !(decide (400 ≤ status) && decide (status < 600))

/-- Valid continuation of a Python `int()` digit string after a digit:
digits, with single underscores only between digits. -/
def pyDigitTail : List Char → Bool
  | [] => true
  | '_' :: c :: rest => c.isDigit && pyDigitTail (c :: rest)
  | '_' :: [] => false
  | c :: rest => c.isDigit && pyDigitTail rest

/-- A valid Python `int()` digit string: nonempty, starts with a digit,
underscores only between digits. -/
def pyDigitsOk : List Char → Bool
  | [] => false
  | c :: rest => c.isDigit && pyDigitTail rest

/-- Numeric value of a digit string, ignoring underscores. -/
def digitsValue (cs : List Char) : ℕ :=
  cs.foldl (fun acc c => if c = '_' then acc else acc * 10 + (c.toNat - 48)) 0

/-- Python `int(s)` on a string: strip surrounding whitespace, optional
sign, base-10 digits with single underscores between digits.  `none` models
the `ValueError` on any other input. -/
def pyStrToInt (s : String) : Option ℤ :=
  let cs := ((s.toList.dropWhile Char.isWhitespace).reverse.dropWhile
      Char.isWhitespace).reverse
  match cs with
  | '+' :: rest => if pyDigitsOk rest then some (digitsValue rest) else none
  | '-' :: rest => if pyDigitsOk rest then some (-(digitsValue rest : ℤ)) else none
  | _ => if pyDigitsOk cs then some (digitsValue cs) else none

/-- `int(response.headers.get("Retry-After", 60))`: 60 when the header is
absent, the parsed value when parseable, a bare `ValueError` otherwise. -/
def retryAfterValue : Option String → Except PyExc ℤ
  | none => .ok 60
  | some v =>
    match pyStrToInt v with
    | some n => .ok n
    | none => .error (.valueError v)

/-- The fallback error message `f"HTTP {response.status_code}"`. -/
def httpFallbackMsg (status : ℕ) : Json :=
  .str ("HTTP " ++ toString status)

/-- Python `data.get(k, dflt)`: field lookup when `data` is a dict, a bare
`AttributeError` on any other JSON value. -/
def dataGet (data : Json) (k : String) (dflt : Json) : Except PyExc Json :=
  match data with
  | .obj fields => .ok ((jsonLookup fields k).getD dflt)
  | _ => .error (.attributeError "get")

/-- `HttpClient.request` (client.py lines 87-129) as a function of the
transport outcome.  Mirrors the source order: transport exceptions first,
then JSON parsing, then the status dispatch, where `error_msg` and
`error_code` are computed (via `data.get`) before branching on the status. -/
def request (path : String) (t : Transport) : Except PyExc Json :=
  match t with
  | .timeout =>
      .error (.primis (.timeoutError (.str ("Request to " ++ path ++ " timed out"))))
  | .connectionError cause =>
      .error (.primis (.perror (.str ("Connection error: " ++ cause))
        (.str "CONNECTION_ERROR")))
  | .response r =>
    match r.jsonBody with
    | none =>
        .error (.primis (.perror (.str ("Invalid JSON response from " ++ path))
          (.str "PARSE_ERROR")))
    | some data =>
      if respOk r.status_code then .ok data
      else
        match dataGet data "error" (httpFallbackMsg r.status_code) with
        | .error e => .error e
        | .ok error_msg =>
          match dataGet data "code" (.str "HTTP_ERROR") with
          | .error e => .error e
          | .ok error_code =>
            if r.status_code = 401 then
              .error (.primis (.authError error_msg))
            else if r.status_code = 429 then
              match retryAfterValue r.retryAfterHeader with
              | .ok n => .error (.primis (.rateLimitError error_msg n))
              | .error e => .error e
            else
              .error (.primis (.apiError error_msg error_code r.status_code))

/-- One string a leading segment of another, on character lists. -/
def charsPre : List Char → List Char → Bool
  | [], _ => true
  | _ :: _, [] => false
  | c :: cs, d :: ds => c == d && charsPre cs ds

/-- Python `s.startswith(pre)`. -/
def pyStartsWith (s pre : String) : Bool :=
  charsPre pre.toList s.toList

/-- Python `s.rstrip("/")`: remove all trailing `/` characters. -/
def rstripSlash (s : String) : String :=
  ⟨(s.toList.reverse.dropWhile (fun c => c = '/')).reverse⟩

/-- The configuration stored by `HttpClient.__init__` (client.py lines
69-85): credential, base endpoint (with trailing slashes stripped), request
timeout.  The `requests.Session` and its headers carry no further state the
claims touch. -/
structure HttpClient where
  api_key : String
  base_url : String
  timeout : ℤ

/-- `HttpClient.__init__`: rejects credentials not starting with `prmis_`
by raising the base `PrimisError` (default code `"UNKNOWN"`), otherwise
stores the configuration with `base_url.rstrip("/")`.  The constructor
performs no network request (it only configures the session object), which
is why this model needs no transport argument. -/
def HttpClient.init (api_key base_url : String) (timeout : ℤ) :
    Except PrimisExc HttpClient :=
  if pyStartsWith api_key "prmis_" then
    .ok ⟨api_key, rstripSlash base_url, timeout⟩
  else
    .error (.perror (.str "Invalid API key format. Keys must start with 'prmis_'")
      (.str "UNKNOWN"))

/-- The `Primis` session object: it owns the `HttpClient` (the resource
namespaces share it and add no state). -/
structure Primis where
  client : HttpClient

/-- `Primis.__init__` (client.py lines 450-463): constructs the
`HttpClient` and the resource namespaces; any `HttpClient` construction
failure propagates.  No network request is made. -/
def Primis.init (api_key base_url : String) (timeout : ℤ) :
    Except PrimisExc Primis :=
  match HttpClient.init api_key base_url timeout with
  | .ok c => .ok ⟨c⟩
  | .error e => .error e

/-- The `Primis.base_url` property (client.py lines 465-468). -/
def Primis.base_url (p : Primis) : String :=
  p.client.base_url

/-- A job record as returned by `get_job`: the `status` field the polling
loop reads, plus the rest of the JSON dict (opaque to the loop). -/
structure Job where
  status : String
  payload : Json
  deriving Repr

/-- `job["status"] in ("completed", "failed")`: the terminal test of the
polling loop. -/
def isTerminal (j : Job) : Bool :=
  j.status == "completed" || j.status == "failed"

/-- An observable event of the polling loop: the n-th call to
`self.get_job(job_id)` (0-based), or a `time.sleep(d)`. -/
inductive Ev where
  | fetch (n : ℕ)
  | sleep (d : ℚ)
  deriving Repr

/-- Outcome of `wait_for_job`: a normal return with the job record, a
raised SDK exception (either propagated from a fetch, or the loop's own
`PrimisTimeoutError`), or fuel exhaustion of the model (never reached in
any theorem below). -/
inductive WaitOutcome where
  | returned (j : Job)
  | raised (e : PrimisExc)
  | fuelOut
  deriving Repr

/-- The `PrimisTimeoutError` message of `wait_for_job`:
`f"Job {job_id} timed out after {max_wait}s"`. -/
def waitTimeoutMsg (jobId : String) (maxWait : ℚ) : Json :=
  .str ("Job " ++ jobId ++ " timed out after " ++ toString maxWait ++ "s")

/-- The `while` loop of `wait_for_job` (client.py lines 297-307).
`fetch n` is the result of the n-th `self.get_job(job_id)` call (a job
record, or a typed SDK exception raised by the underlying request);
`elapsed` is `time.time() - start_time` under the deterministic clock
(time advances by `pollInterval` at each sleep, fetches are instantaneous);
`fuel` bounds the number of iterations the model unfolds.  Next to the
outcome it returns the exact ordered trace of fetch and sleep events. -/
def waitLoop (fetch : ℕ → Except PrimisExc Job) (jobId : String)
    (pollInterval maxWait : ℚ) :
    ℕ → ℚ → ℕ → WaitOutcome × List Ev
  | 0, _, _ => (.fuelOut, [])
  | fuel + 1, elapsed, n =>
    if elapsed < maxWait then
      match fetch n with
      | .error e => (.raised e, [.fetch n])
      | .ok job =>
        if isTerminal job then
          (.returned job, [.fetch n])
        else
          let rest := waitLoop fetch jobId pollInterval maxWait fuel
            (elapsed + pollInterval) (n + 1)
          (rest.1, .fetch n :: .sleep pollInterval :: rest.2)
    else
      (.raised (.timeoutError (waitTimeoutMsg jobId maxWait)), [])

/-- `ImagesResource.wait_for_job(job_id, poll_interval, max_wait)`:
start the clock at 0 and run the loop from the first fetch. -/
def wait_for_job (fetch : ℕ → Except PrimisExc Job) (jobId : String)
    (pollInterval maxWait : ℚ) (fuel : ℕ) : WaitOutcome × List Ev :=
  waitLoop fetch jobId pollInterval maxWait fuel 0 0

/-- The trace of `k` non-terminal loop iterations starting at fetch index
`n`: fetch, sleep, fetch, sleep, ... (`k` fetch/sleep pairs). -/
def fetchSleepTrace (p : ℚ) : ℕ → ℕ → List Ev
  | _, 0 => []
  | n, k + 1 => .fetch n :: .sleep p :: fetchSleepTrace p (n + 1) k

lemma waitLoop_skip (fetch : ℕ → Except PrimisExc Job) (jobId : String)
    (p m : ℚ) (k : ℕ) :
    ∀ (fuel n : ℕ) (elapsed : ℚ),
      (∀ i, i < k → ∃ j, fetch (n + i) = Except.ok j ∧ isTerminal j = false) →
      (∀ i : ℕ, i < k → elapsed + (i : ℚ) * p < m) →
      waitLoop fetch jobId p m (fuel + k) elapsed n =
        ((waitLoop fetch jobId p m fuel (elapsed + (k : ℚ) * p) (n + k)).1,
          fetchSleepTrace p n k ++
            (waitLoop fetch jobId p m fuel (elapsed + (k : ℚ) * p) (n + k)).2) := by
  induction k with
  | zero =>
    intro fuel n elapsed _ _
    simp [fetchSleepTrace]
  | succ k ih =>
    intro fuel n elapsed hfetch helapsed
    obtain ⟨j0, hj0, hterm0⟩ := hfetch 0 (Nat.succ_pos k)
    have hj0' : fetch n = Except.ok j0 := by simpa using hj0
    have h0 : elapsed < m := by simpa using helapsed 0 (Nat.succ_pos k)
    have step :
        waitLoop fetch jobId p m (fuel + (k + 1)) elapsed n =
          (let rest := waitLoop fetch jobId p m (fuel + k) (elapsed + p) (n + 1)
           (rest.1, .fetch n :: .sleep p :: rest.2)) := by
      show waitLoop fetch jobId p m ((fuel + k) + 1) elapsed n = _
      rw [waitLoop, if_pos h0, hj0']
      simp [hterm0]
    rw [step]
    have ihx := ih fuel (n + 1) (elapsed + p)
      (fun i hi => by
        obtain ⟨j, hj, ht⟩ := hfetch (i + 1) (Nat.succ_lt_succ hi)
        exact ⟨j, by simpa [Nat.add_assoc, Nat.add_comm 1 i] using hj, ht⟩)
      (fun i hi => by
        have := helapsed (i + 1) (Nat.succ_lt_succ hi)
        push_cast at this ⊢
        linarith)
    rw [ihx]
    have harg : elapsed + p + (k : ℚ) * p = elapsed + ((k : ℚ) + 1) * p := by ring
    have hn : n + 1 + k = n + (k + 1) := by omega
    rw [harg, hn]
    push_cast
    simp [fetchSleepTrace]

/-- Claim C1: for a job whose status fetches report a non-terminal status on
the first two polls and `completed` on the third, `wait_for_job` performs
exactly three fetches, returns the third fetched job record, and sleeps for
`poll_interval` between consecutive fetches but not after the terminal
(third) fetch.  The hypotheses `0 ≤ p` and `2 * p < m` state that the wait
budget does not expire before the third poll; the defaults
(`poll_interval = 2`, `max_wait = 300`) satisfy them. -/
theorem wait_for_job_three_polls
    (fetch : ℕ → Except PrimisExc Job) (jobId : String) (p m : ℚ)
    (j0 j1 j2 : Job)
    (h0 : fetch 0 = Except.ok j0) (ht0 : isTerminal j0 = false)
    (h1 : fetch 1 = Except.ok j1) (ht1 : isTerminal j1 = false)
    (h2 : fetch 2 = Except.ok j2) (ht2 : j2.status = "completed")
    (hp : 0 ≤ p) (hm : 2 * p < m) (fuel : ℕ) (hfuel : 3 ≤ fuel) :
    wait_for_job fetch jobId p m fuel =
      (.returned j2, [.fetch 0, .sleep p, .fetch 1, .sleep p, .fetch 2]) := by
  obtain ⟨f, rfl⟩ := Nat.exists_eq_add_of_le hfuel
  rw [show 3 + f = (f + 1) + 2 from by omega]
  have hskip := waitLoop_skip fetch jobId p m 2 (f + 1) 0 0
    (fun i hi => by
      interval_cases i
      · exact ⟨j0, by simpa using h0, ht0⟩
      · exact ⟨j1, by simpa using h1, ht1⟩)
    (fun i hi => by
      interval_cases i
      · simpa using by linarith
      · push_cast
        linarith)
  rw [wait_for_job, hskip]
  have hstep :
      waitLoop fetch jobId p m (f + 1) (0 + ((2 : ℕ) : ℚ) * p) (0 + 2) =
        (.returned j2, [.fetch 2]) := by
    rw [waitLoop, if_pos (by push_cast; linarith : (0 : ℚ) + ((2 : ℕ) : ℚ) * p < m)]
    rw [show (0 + 2 : ℕ) = 2 from rfl, h2]
    simp [isTerminal, ht2]
  rw [hstep]
  simp [fetchSleepTrace]

/-- Witness for C1 at concrete inputs: two `running` polls, then
`completed`, with the default `poll_interval = 2` and `max_wait = 300`. -/
theorem wait_for_job_three_polls_witness :
    wait_for_job
      (fun n => if n < 2 then Except.ok ⟨"running", Json.null⟩
                else Except.ok ⟨"completed", Json.null⟩)
      "job-1" 2 300 3 =
      (.returned ⟨"completed", Json.null⟩,
        [.fetch 0, .sleep 2, .fetch 1, .sleep 2, .fetch 2]) :=
  wait_for_job_three_polls
    (fun n => if n < 2 then Except.ok ⟨"running", Json.null⟩
              else Except.ok ⟨"completed", Json.null⟩)
    "job-1" 2 300 ⟨"running", Json.null⟩ ⟨"running", Json.null⟩
    ⟨"completed", Json.null⟩ rfl rfl rfl rfl rfl rfl
    (by norm_num) (by norm_num) 3 le_rfl

/-- Claim C8: a job whose first status fetch reports `failed` makes
`wait_for_job` return normally with that job record after exactly one fetch
(no sleep, no exception raised).  `0 < m` states that the wait budget is
positive, as the default `max_wait = 300` is. -/
theorem wait_for_job_failed_first_poll
    (fetch : ℕ → Except PrimisExc Job) (jobId : String) (p m : ℚ) (j : Job)
    (h0 : fetch 0 = Except.ok j) (hst : j.status = "failed")
    (hm : 0 < m) (fuel : ℕ) (hfuel : 1 ≤ fuel) :
    wait_for_job fetch jobId p m fuel = (.returned j, [.fetch 0]) := by
  obtain ⟨f, rfl⟩ := Nat.exists_eq_add_of_le hfuel
  rw [show 1 + f = f + 1 from by omega]
  rw [wait_for_job, waitLoop, if_pos hm, h0]
  simp [isTerminal, hst]

/-- Witness for C8 at concrete inputs: the first poll reports `failed`,
with the default `poll_interval = 2` and `max_wait = 300`. -/
theorem wait_for_job_failed_first_poll_witness :
    wait_for_job (fun _ => Except.ok ⟨"failed", Json.null⟩) "job-2" 2 300 1 =
      (.returned ⟨"failed", Json.null⟩, [.fetch 0]) :=
  wait_for_job_failed_first_poll (fun _ => Except.ok ⟨"failed", Json.null⟩)
    "job-2" 2 300 ⟨"failed", Json.null⟩ rfl rfl (by norm_num) 1 le_rfl

/-- Claim C10: when the (k+1)-st status fetch raises a typed SDK exception
(after k non-terminal polls that stayed within the wait budget), the
exception propagates immediately out of `wait_for_job`: the trace ends at
the failing fetch — no further fetch, no further sleep, and no retry of the
failing fetch. -/
theorem wait_for_job_error_propagates
    (fetch : ℕ → Except PrimisExc Job) (jobId : String) (p m : ℚ)
    (k : ℕ) (e : PrimisExc)
    (hpre : ∀ i, i < k → ∃ j, fetch i = Except.ok j ∧ isTerminal j = false)
    (he : fetch k = Except.error e)
    (hp : 0 ≤ p) (hm : (k : ℚ) * p < m)
    (fuel : ℕ) (hfuel : k < fuel) :
    wait_for_job fetch jobId p m fuel =
      (.raised e, fetchSleepTrace p 0 k ++ [.fetch k]) := by
  obtain ⟨f, rfl⟩ := Nat.exists_eq_add_of_lt hfuel
  rw [show k + f + 1 = (f + 1) + k from by omega]
  have hskip := waitLoop_skip fetch jobId p m k (f + 1) 0 0
    (fun i hi => by simpa using hpre i hi)
    (fun i hi => by
      have hik : (i : ℚ) ≤ (k : ℚ) := by exact_mod_cast Nat.le_of_lt hi
      have : (i : ℚ) * p ≤ (k : ℚ) * p := mul_le_mul_of_nonneg_right hik hp
      linarith)
  rw [wait_for_job, hskip]
  have hstep :
      waitLoop fetch jobId p m (f + 1) (0 + (k : ℚ) * p) (0 + k) =
        (.raised e, [.fetch (0 + k)]) := by
    rw [waitLoop, if_pos (by linarith : (0 : ℚ) + (k : ℚ) * p < m)]
    rw [show (0 + k : ℕ) = k from by omega, he]
  rw [hstep]
  simp

/-- Witness for C10 at concrete inputs: two `pending` polls, then a
connection error on the third fetch, with defaults `2` / `300`. -/
theorem wait_for_job_error_propagates_witness :
    wait_for_job
      (fun n => if n < 2 then Except.ok ⟨"pending", Json.null⟩
                else Except.error (.perror (.str "Connection error: down")
                  (.str "CONNECTION_ERROR")))
      "job-3" 2 300 4 =
      (.raised (.perror (.str "Connection error: down") (.str "CONNECTION_ERROR")),
        [.fetch 0, .sleep 2, .fetch 1, .sleep 2, .fetch 2]) := by
  have h := wait_for_job_error_propagates
    (fun n => if n < 2 then Except.ok ⟨"pending", Json.null⟩
              else Except.error (.perror (.str "Connection error: down")
                (.str "CONNECTION_ERROR")))
    "job-3" 2 300 2 (.perror (.str "Connection error: down") (.str "CONNECTION_ERROR"))
    (fun i hi => by
      interval_cases i
      · exact ⟨⟨"pending", Json.null⟩, rfl, rfl⟩
      · exact ⟨⟨"pending", Json.null⟩, rfl, rfl⟩)
    rfl (by norm_num) (by norm_num) 4 (by norm_num)
  simpa [fetchSleepTrace] using h

/-- Counterexample to claim C2 as stated: with `max_wait = 0` (which is
below `poll_interval = 2`) and a job that never reaches a terminal status,
`wait_for_job` performs ZERO fetches — the `while time.time() - start_time
< max_wait` guard is false at the very first check — and raises
`PrimisTimeoutError` with an empty event trace, contradicting "at least one
status fetch is performed before any TimeoutError" and "performs exactly
one fetch". -/
theorem wait_for_job_zero_budget_cex :
    wait_for_job (fun _ => Except.ok ⟨"pending", Json.null⟩) "job-1" 2 0 5 =
      (.raised (.timeoutError (waitTimeoutMsg "job-1" 0)), []) := by
  rw [wait_for_job, show (5 : ℕ) = 4 + 1 from rfl, waitLoop,
    if_neg (by norm_num : ¬((0 : ℚ) < 0))]

/-- Claim C2, amended: for a strictly positive `max_wait` below
`poll_interval` and a job that never reaches a terminal status,
`wait_for_job` performs exactly one fetch, sleeps once, and then raises
`PrimisTimeoutError` whose message names the job identifier (with
`max_wait = 0` or negative, the code performs no fetch at all; see the
counterexample). -/
theorem wait_for_job_budget_below_interval
    (fetch : ℕ → Except PrimisExc Job) (jobId : String) (p m : ℚ)
    (hf : ∀ n, ∃ j, fetch n = Except.ok j ∧ isTerminal j = false)
    (hm0 : 0 < m) (hmp : m < p) (fuel : ℕ) (hfuel : 2 ≤ fuel) :
    wait_for_job fetch jobId p m fuel =
      (.raised (.timeoutError (waitTimeoutMsg jobId m)), [.fetch 0, .sleep p]) := by
  obtain ⟨f, rfl⟩ := Nat.exists_eq_add_of_le hfuel
  rw [show 2 + f = (f + 1) + 1 from by omega]
  have hskip := waitLoop_skip fetch jobId p m 1 (f + 1) 0 0
    (fun i hi => by
      interval_cases i
      simpa using hf 0)
    (fun i hi => by
      interval_cases i
      simpa using hm0)
  rw [wait_for_job, hskip]
  have hstep :
      waitLoop fetch jobId p m (f + 1) (0 + ((1 : ℕ) : ℚ) * p) (0 + 1) =
        (.raised (.timeoutError (waitTimeoutMsg jobId m)), []) := by
    rw [waitLoop, if_neg (by push_cast; linarith : ¬((0 : ℚ) + ((1 : ℕ) : ℚ) * p < m))]
  rw [hstep]
  simp [fetchSleepTrace]

/-- Witness for the amended C2 at concrete inputs: `max_wait = 1` below
`poll_interval = 2`, a job forever `pending`. -/
theorem wait_for_job_budget_below_interval_witness :
    wait_for_job (fun _ => Except.ok ⟨"pending", Json.null⟩) "job-4" 2 1 2 =
      (.raised (.timeoutError (waitTimeoutMsg "job-4" 1)), [.fetch 0, .sleep 2]) :=
  wait_for_job_budget_below_interval (fun _ => Except.ok ⟨"pending", Json.null⟩)
    "job-4" 2 1 (fun _ => ⟨⟨"pending", Json.null⟩, rfl, rfl⟩)
    (by norm_num) (by norm_num) 2 le_rfl

/-- Claim C9: for every credential not beginning with `prmis_`, session
construction fails with the base `PrimisError` (the spec's `GenericError`;
default code `"UNKNOWN"`).  The model of construction takes no transport
argument at all — no network request can occur before or during the
failure. -/
theorem init_rejects_bad_key (api_key base_url : String) (timeout : ℤ)
    (h : pyStartsWith api_key "prmis_" = false) :
    Primis.init api_key base_url timeout =
      Except.error (.perror
        (.str "Invalid API key format. Keys must start with 'prmis_'")
        (.str "UNKNOWN")) := by
  simp [Primis.init, HttpClient.init, h]

/-- Witness for C9 at a concrete input. -/
theorem init_rejects_bad_key_witness :
    Primis.init "sk_bad" "http://localhost:3001" 30 =
      Except.error (.perror
        (.str "Invalid API key format. Keys must start with 'prmis_'")
        (.str "UNKNOWN")) :=
  init_rejects_bad_key "sk_bad" "http://localhost:3001" 30 rfl

/-- Counterexample to claim C4 as stated: constructing a session with base
endpoint `"http://localhost:3001/"` and reading it back yields
`"http://localhost:3001"`, not the value passed in —
`HttpClient.__init__` applies `base_url.rstrip("/")`, so the configuration
is altered for any base endpoint with a trailing slash. -/
theorem base_url_roundtrip_cex :
    (Primis.init "prmis_key" "http://localhost:3001/" 30).toOption.map
        Primis.base_url = some "http://localhost:3001" ∧
      ("http://localhost:3001" : String) ≠ "http://localhost:3001/" :=
  ⟨rfl, by decide⟩

/-- Claim C4, amended: for every explicit base endpoint and timeout passed
at construction with a well-formed credential, the timeout reads back
exactly, and the base endpoint reads back as the input with its trailing
`/` characters stripped — hence exactly the input whenever the input has no
trailing slash. -/
theorem session_config_roundtrip (api_key base_url : String) (timeout : ℤ)
    (h : pyStartsWith api_key "prmis_" = true) :
    ∃ s, Primis.init api_key base_url timeout = Except.ok s ∧
      s.client.timeout = timeout ∧
      Primis.base_url s = rstripSlash base_url := by
  refine ⟨⟨⟨api_key, rstripSlash base_url, timeout⟩⟩, ?_, rfl, rfl⟩
  simp [Primis.init, HttpClient.init, h]

/-- Witness for the amended C4 at concrete inputs (a base endpoint without
a trailing slash reads back unchanged). -/
theorem session_config_roundtrip_witness :
    ∃ s, Primis.init "prmis_demo" "http://localhost:3001" 30 = Except.ok s ∧
      s.client.timeout = 30 ∧ Primis.base_url s = "http://localhost:3001" := by
  have h := session_config_roundtrip "prmis_demo" "http://localhost:3001" 30 rfl
  have e : rstripSlash "http://localhost:3001" = "http://localhost:3001" := rfl
  rw [e] at h
  exact h

/-- `true` when the result of `execute` is a success or one of the typed
SDK exceptions; `false` when a bare Python exception escapes. -/
def typedOutcome : Except PyExc Json → Bool
  | .ok _ => true
  | .error (.primis _) => true
  | .error _ => false

/-- Counterexample to claim C3 as stated: a 429 response whose
`Retry-After` header is present but not parseable as an integer does not
produce a `RateLimitError` with `retry_after = 60` — the bare `ValueError`
from `int("soon")` escapes instead. -/
theorem rate_limit_unparseable_header_cex :
    request "/api/batch/generate"
      (.response ⟨429, some "soon", some (.obj [])⟩) =
      Except.error (.valueError "soon") := rfl

/-- Claim C3, amended: for every 429 response whose body is a JSON object,
`execute` raises `RateLimitError` whose `retry_after` equals the
`Retry-After` header value when the header is present and parseable as an
integer, and equals exactly 60 when the header is absent; when the header
is present but unparseable, the bare `ValueError` from `int()` escapes
instead (see the counterexample). -/
theorem rate_limit_retry_after (path : String)
    (fields : List (String × Json)) (rh : Option String) :
    (rh = none →
      request path (.response ⟨429, rh, some (.obj fields)⟩) =
        Except.error (.primis (.rateLimitError
          ((jsonLookup fields "error").getD (httpFallbackMsg 429)) 60))) ∧
    (∀ v n, rh = some v → pyStrToInt v = some n →
      request path (.response ⟨429, rh, some (.obj fields)⟩) =
        Except.error (.primis (.rateLimitError
          ((jsonLookup fields "error").getD (httpFallbackMsg 429)) n))) ∧
    (∀ v, rh = some v → pyStrToInt v = none →
      request path (.response ⟨429, rh, some (.obj fields)⟩) =
        Except.error (.valueError v)) := by
  refine ⟨?_, ?_, ?_⟩
  · rintro rfl
    simp [request, respOk, dataGet, retryAfterValue]
  · rintro v n rfl hv
    simp [request, respOk, dataGet, retryAfterValue, hv]
  · rintro v rfl hv
    simp [request, respOk, dataGet, retryAfterValue, hv]

/-- Witness for the amended C3: header `"120"` parses to 120. -/
theorem rate_limit_retry_after_witness :
    request "/api/batch/generate" (.response ⟨429, some "120", some (.obj [])⟩) =
      Except.error (.primis (.rateLimitError (httpFallbackMsg 429) 120)) := by
  have h := (rate_limit_retry_after "/api/batch/generate" [] (some "120")).2.1
    "120" 120 rfl rfl
  have e : (jsonLookup [] "error").getD (httpFallbackMsg 429) = httpFallbackMsg 429 := rfl
  rw [e] at h
  exact h

/-- Counterexample to claim C7 as stated: a 401 response whose body is
valid JSON but not an object (here the JSON string `"unauthorized"`) does
not yield `AuthError` — `data.get("error", ...)` raises a bare
`AttributeError` first, so the claim's "regardless of the response body's
contents" fails. -/
theorem auth_error_nonobject_body_cex :
    request "/api/files" (.response ⟨401, none, some (.str "unauthorized")⟩) =
      Except.error (.attributeError "get") := rfl

/-- Claim C7, amended: for every 401 response whose body is a JSON object
(regardless of which fields it has and of any headers), `execute` raises
`AuthError` with status fixed at 401 and code fixed at `AUTH_ERROR`, whose
message is the body's `error` field when present and the fallback
`"HTTP 401"` otherwise. -/
theorem auth_error_mapping (path : String)
    (fields : List (String × Json)) (rh : Option String) :
    request path (.response ⟨401, rh, some (.obj fields)⟩) =
      Except.error (.primis (.authError
        ((jsonLookup fields "error").getD (httpFallbackMsg 401)))) ∧
    PrimisExc.status_code
      (.authError ((jsonLookup fields "error").getD (httpFallbackMsg 401))) =
        some 401 ∧
    PrimisExc.code
      (.authError ((jsonLookup fields "error").getD (httpFallbackMsg 401))) =
        .str "AUTH_ERROR" := by
  refine ⟨?_, rfl, rfl⟩
  simp [request, respOk, dataGet]

/-- Witness for the amended C7 at a concrete input. -/
theorem auth_error_mapping_witness :
    request "/api/files"
      (.response ⟨401, none, some (.obj [("error", Json.str "bad key")])⟩) =
      Except.error (.primis (.authError (.str "bad key"))) := by
  have h := (auth_error_mapping "/api/files" [("error", Json.str "bad key")] none).1
  have e : (jsonLookup [("error", Json.str "bad key")] "error").getD
      (httpFallbackMsg 401) = Json.str "bad key" := rfl
  rw [e] at h
  exact h

/-- Counterexample to claim C5 as stated: a response with the non-2xx
status 300 and a valid JSON object body returns the parsed body normally —
`response.ok` of the `requests` library holds for every status below 400,
so no `APIError` is raised. -/
theorem api_error_status_300_cex :
    request "/api/files"
      (.response ⟨300, none,
        some (.obj [("error", .str "choices"), ("code", .str "MC")])⟩) =
      Except.ok (.obj [("error", .str "choices"), ("code", .str "MC")]) := rfl

/-- Claim C5, amended: for every response whose status is in [400, 600)
and not 401 or 429, and whose body is a valid JSON object, `execute`
raises `APIError` whose `status_code` equals the response status, whose
code equals the body's `code` field or falls back to `HTTP_ERROR`, and
whose message equals the body's `error` field or falls back to
`HTTP {status}`.  (Statuses in (2xx ∪ 3xx) return the body normally — see
the counterexample — and a non-object JSON body raises a bare
`AttributeError` instead.) -/
theorem api_error_mapping (path : String)
    (fields : List (String × Json)) (status : ℕ) (rh : Option String)
    (h4 : 400 ≤ status) (h6 : status < 600)
    (hn1 : status ≠ 401) (hn2 : status ≠ 429) :
    request path (.response ⟨status, rh, some (.obj fields)⟩) =
      Except.error (.primis (.apiError
        ((jsonLookup fields "error").getD (httpFallbackMsg status))
        ((jsonLookup fields "code").getD (.str "HTTP_ERROR"))
        status)) := by
  simp [request, respOk, dataGet, h4, h6, hn1, hn2]

/-- Witness for the amended C5: a 503 with an `error` field and no `code`
field. -/
theorem api_error_mapping_witness :
    request "/api/instances"
      (.response ⟨503, none, some (.obj [("error", Json.str "down")])⟩) =
      Except.error (.primis (.apiError (.str "down") (.str "HTTP_ERROR") 503)) := by
  have h := api_error_mapping "/api/instances" [("error", Json.str "down")] 503 none
    (by norm_num) (by norm_num) (by norm_num) (by norm_num)
  have e1 : (jsonLookup [("error", Json.str "down")] "error").getD
      (httpFallbackMsg 503) = Json.str "down" := rfl
  have e2 : (jsonLookup [("error", Json.str "down")] "code").getD
      (Json.str "HTTP_ERROR") = Json.str "HTTP_ERROR" := rfl
  rw [e1, e2] at h
  exact h

/-- Counterexample to claim C6 as stated: a 500 response whose body is
valid JSON but not an object makes a bare `AttributeError` (from
`data.get`) cross the library boundary, so not every known failure mode
yields a typed error.  (A 429 with an unparseable `Retry-After` header
likewise leaks a bare `ValueError`.) -/
theorem typed_errors_cex :
    request "/api/files" (.response ⟨500, none, some (.str "oops")⟩) =
      Except.error (.attributeError "get") := rfl

/-- Claim C6, amended: for connection failures, request timeouts, non-JSON
bodies, and every non-success HTTP status whose JSON body is an object and
— when the status is 429 — whose `Retry-After` header is absent or
parseable as an integer, the failure reaching the caller of `execute` is
one of the typed SDK error kinds; bare Python exceptions escape only for a
non-object JSON body on an error status, or an unparseable `Retry-After` on
a 429 (see the counterexample). -/
theorem typed_errors (path : String) (t : Transport)
    (hbody : ∀ r, t = .response r → respOk r.status_code = false →
      ∀ j, r.jsonBody = some j → ∃ fields, j = .obj fields)
    (hretry : ∀ r, t = .response r → r.status_code = 429 →
      ∀ v, r.retryAfterHeader = some v → (pyStrToInt v).isSome = true) :
    typedOutcome (request path t) = true := by
  cases t with
  | timeout => rfl
  | connectionError cause => rfl
  | response r =>
    obtain ⟨status, rh, body⟩ := r
    cases body with
    | none => rfl
    | some j =>
      by_cases hok : respOk status = true
      · simp [request, typedOutcome, hok]
      · have hfalse : respOk status = false := by
          simpa using hok
        obtain ⟨fields, rfl⟩ := hbody ⟨status, rh, some j⟩ rfl hfalse j rfl
        by_cases h1 : status = 401
        · subst h1
          simp [request, respOk, dataGet, typedOutcome]
        · by_cases h2 : status = 429
          · subst h2
            cases rh with
            | none =>
              simp [request, respOk, dataGet, typedOutcome, retryAfterValue]
            | some v =>
              have hv := hretry ⟨429, some v, some (.obj fields)⟩ rfl rfl v rfl
              obtain ⟨n, hn⟩ := Option.isSome_iff_exists.mp hv
              simp [request, respOk, dataGet, typedOutcome, retryAfterValue, hn]
          · simp [request, dataGet, typedOutcome, hfalse, h1, h2]

/-- Witness for the amended C6: a 429 with a parseable `Retry-After`
header and an object body yields a typed outcome. -/
theorem typed_errors_witness :
    typedOutcome (request "/api/batch/generate"
      (Transport.response ⟨429, some "120", some (Json.obj [])⟩)) = true :=
  typed_errors "/api/batch/generate"
    (Transport.response ⟨429, some "120", some (Json.obj [])⟩)
    (fun r hr => by
      cases hr
      intro _ j hj
      cases hj
      exact ⟨[], rfl⟩)
    (fun r hr => by
      cases hr
      intro _ v hv
      cases hv
      rfl)
